import Mathlib

/-!
# Verification of the pharmacypro supervisor (src/src-tauri/src/main.rs)

A shallow embedding of the Tauri supervisor: health probes, the readiness
polling gate `wait_for_services`, fallback command resolution for the two
service roles, and the mutex-guarded shutdown handler.  Network and process
effects are modelled by explicit oracles (probe outcomes per tick, spawn
results per program name, termination results per handle); machine-level
details that the claims do not touch (the embedded HTML payloads of the
`window.eval` calls) are carried as the status strings the source formats
into them.
-/

namespace PharmacyPro

/-! ## Health probes (main.rs lines 10-24)

`reqwest::get` returns either `Err` (connection failure — folded to `none`)
or a response whose final status code we carry as `some code`.
`StatusCode::is_success` in the `http` crate is true exactly for codes
200..=299. -/

/-- `StatusCode::is_success()` from the `http` crate used by `reqwest`:
true exactly for the 2xx class (200 ≤ code ≤ 299). -/
def statusIsSuccess (code : Nat) : Bool :=
  200 ≤ code && code < 300

/-- `is_backend_ready` (main.rs 11-16): `Ok(response) => response.status().is_success()`,
`Err(_) => false`.  The argument is the outcome of `reqwest::get`: `none` for a
connection error, `some code` for a received response with final status `code`. -/
def is_backend_ready (resp : Option Nat) : Bool :=
  match resp with
  | some code => statusIsSuccess code
  | none => false

/-- `is_frontend_ready` (main.rs 19-24): identical shape, different URL. -/
def is_frontend_ready (resp : Option Nat) : Bool :=
  match resp with
  | some code => statusIsSuccess code
  | none => false

/-- `reqwest::get` builds a default `Client`; the `reqwest` default request
timeout is disabled (`None`).  The source configures no timeout anywhere. -/
def reqwest_default_timeout : Option Nat :=
  none

/-- Poll cadence of the readiness loop: `tokio::time::sleep(Duration::from_secs(1))`
(main.rs 164). -/
def poll_interval_secs : Nat := 1

/-! ## Readiness gate `wait_for_services` (main.rs 134-185) -/

/-- Observable events of one run of `wait_for_services`, in emission order. -/
inductive Event where
  /-- `is_backend_ready().await` returned `b` (main.rs 140). -/
  | probeBackend (b : Bool)
  /-- `is_frontend_ready().await` returned `f` (main.rs 141). -/
  | probeFrontend (f : Bool)
  /-- `window.eval` updating the loading message to `s` (main.rs 160-162). -/
  | emitStatus (s : String)
  /-- `window.navigate` to the frontend root URL (main.rs 147). -/
  | navigate (url : String)
  /-- the terminal `window.eval` rendering the error view (main.rs 172-184). -/
  | emitFailed
  deriving DecidableEq, Repr

/-- The frontend root URL handed to `window.navigate` (main.rs 147). -/
def frontend_url : String := "http://127.0.0.1:3000"

/-- The status string computation (main.rs 152-158). -/
def statusMessage (backend_ready frontend_ready : Bool) : String :=
  if backend_ready && !frontend_ready then
    "Waiting for frontend..."
  else if !backend_ready && frontend_ready then
    "Waiting for backend..."
  else
    "Starting services..."

/-- The `while attempts < max_attempts` loop of `wait_for_services`
(main.rs 139-184), parametrised by:
* `evalW`/`navW` — the `window.eval` / `window.navigate` callbacks; the source
  discards their results (`let _ = ...`), which the `let _ :=` here mirrors;
* `oracle` — the pair of probe outcomes observed at each attempt index;
* `attempts` — the current value of the `attempts` counter;
* `remaining` — `max_attempts - attempts`, the loop's remaining iterations.
Returns the trace of observable events.  When the loop exhausts its budget the
source runs the error-view `window.eval` (`emitFailed`). -/
def waitFrom (evalW navW : String → Except String Unit) (oracle : Nat → Bool × Bool) :
    Nat → Nat → List Event
  | _, 0 =>
      let _ := evalW "error view"
      [Event.emitFailed]
  | attempts, remaining + 1 =>
      let backend_ready := (oracle attempts).1
      let frontend_ready := (oracle attempts).2
      Event.probeBackend backend_ready :: Event.probeFrontend frontend_ready ::
        if backend_ready && frontend_ready then
          let _ := navW frontend_url
          [Event.navigate frontend_url]
        else
          let _ := evalW (statusMessage backend_ready frontend_ready)
          Event.emitStatus (statusMessage backend_ready frontend_ready) ::
            waitFrom evalW navW oracle (attempts + 1) remaining

/-- `max_attempts = 60` (main.rs 137). -/
def max_attempts : Nat := 60

/-- `wait_for_services` (main.rs 135): the loop starting from `attempts = 0`
with budget `maxAttempts` (`60` in the source; kept as a parameter so the
spec's `maxAttempts = 3` scenario is the same function at another budget). -/
def wait_for_services (evalW navW : String → Except String Unit)
    (oracle : Nat → Bool × Bool) (maxAttempts : Nat) : List Event :=
  waitFrom evalW navW oracle 0 maxAttempts

/-- Event classifiers for counting. -/
def isStatus : Event → Bool
  | Event.emitStatus _ => true
  | _ => false

def isProbe : Event → Bool
  | Event.probeBackend _ => true
  | Event.probeFrontend _ => true
  | _ => false

def isFailed : Event → Bool
  | Event.emitFailed => true
  | _ => false

def isNavigate : Event → Bool
  | Event.navigate _ => true
  | _ => false

/-- `true` when no probe event occurs after an `emitFailed` event. -/
def noProbeAfterFailed : List Event → Bool
  | [] => true
  | Event.emitFailed :: rest => rest.all (fun e => !isProbe e)
  | _ :: rest => noProbeAfterFailed rest

/-- Number of status-update emissions in a trace. -/
def countStatus : List Event → Nat
  | [] => 0
  | Event.emitStatus _ :: rest => countStatus rest + 1
  | _ :: rest => countStatus rest

/-- Number of terminal-failure emissions in a trace. -/
def countFailed : List Event → Nat
  | [] => 0
  | Event.emitFailed :: rest => countFailed rest + 1
  | _ :: rest => countFailed rest

/-- Number of probe calls in a trace. -/
def countProbe : List Event → Nat
  | [] => 0
  | Event.probeBackend _ :: rest => countProbe rest + 1
  | Event.probeFrontend _ :: rest => countProbe rest + 1
  | _ :: rest => countProbe rest

/-! ## Probe sequencing within one tick (main.rs 140-141)

The loop body runs `is_backend_ready().await` to completion and only then
starts `is_frontend_ready().await` — two sequential `await`s with no
`join!`/`select!`.  With probe latencies `b` and `f` the tick's probe phase
therefore occupies `[0, b + f)`: the backend request spans `[0, b)` and the
frontend request spans `[b, b + f)`. -/

/-- Start time of the backend probe within a tick: the first statement. -/
def backendProbeStart : Nat := 0

/-- Completion time of the backend probe with latency `b`. -/
def backendProbeEnd (b : Nat) : Nat := b

/-- Start time of the frontend probe: only after the backend `await` returns. -/
def frontendProbeStart (b : Nat) : Nat := b

/-- Completion time of the frontend probe with latencies `b`, `f`. -/
def frontendProbeEnd (b f : Nat) : Nat := b + f

/-- Duration of the probe phase of one tick: both probes done. -/
def tickProbeDuration (b f : Nat) : Nat := frontendProbeEnd b f

/-! ## Command resolution (main.rs 27-127)

Spawning is modelled by an oracle from the program name to either a handle
(`Except.ok`) or the OS spawn error (`Except.error`): a candidate fails at
this layer exactly when the program cannot be spawned at all.  The list of
attempted program names mirrors the per-candidate log lines the source
prints. -/

/-- A spawn oracle: program name to spawn outcome. -/
def SpawnOracle : Type := String → Except String Nat

/-- The venv interpreter path (main.rs 31). -/
def venv_python : String := "../backend/venv/bin/python"

/-- The fallback interpreter candidates (main.rs 57). -/
def python_commands : List String := ["python3", "python", "py"]

/-- The frontend package-manager candidates with their argument vectors
(main.rs 95-100). -/
def frontend_commands : List (String × List String) :=
  [("npm", ["run", "start"]), ("yarn", ["start"]), ("pnpm", ["start"]), ("bun", ["run", "start"])]

/-- The `for` loop over candidates (main.rs 59-82 and 102-121): try each
program in order, return on the first successful spawn, continue past
failures.  Returns the attempted program names in order together with the
first handle obtained, if any. -/
def tryCommands (spawn : SpawnOracle) : List String → List String × Option Nat
  | [] => ([], none)
  | cmd :: rest =>
      match spawn cmd with
      | Except.ok child => ([cmd], some child)
      | Except.error _ =>
          ((cmd :: (tryCommands spawn rest).1), (tryCommands spawn rest).2)

/-- The fixed error of `start_backend` when every candidate fails (main.rs 84-87). -/
def backendNotFoundMsg : String :=
  "Could not start Python backend - Python not found"

/-- The fixed error of `start_frontend` when every candidate fails (main.rs 123-126). -/
def frontendNotFoundMsg : String :=
  "Could not start React frontend - node package manager not found"

/-- `start_backend` (main.rs 27-88): if the venv interpreter path exists it is
tried first; on its spawn failure (or absence) the fallback interpreters are
tried in order; if everything fails the fixed `NotFound` error is returned.
`venvExists` models `std::path::Path::new(venv_python).exists()`. -/
def start_backend (venvExists : Bool) (spawn : SpawnOracle) :
    List String × Except String Nat :=
  if venvExists then
    match spawn venv_python with
    | Except.ok child => ([venv_python], Except.ok child)
    | Except.error _ =>
        (venv_python :: (tryCommands spawn python_commands).1,
          match (tryCommands spawn python_commands).2 with
          | some child => Except.ok child
          | none => Except.error backendNotFoundMsg)
  else
    ((tryCommands spawn python_commands).1,
      match (tryCommands spawn python_commands).2 with
      | some child => Except.ok child
      | none => Except.error backendNotFoundMsg)

/-- `start_frontend` (main.rs 91-127): the package managers are tried in
order; spawnability depends on the program name (argument vectors do not
affect whether the binary can be spawned). -/
def start_frontend (spawn : SpawnOracle) : List String × Except String Nat :=
  ((tryCommands spawn (frontend_commands.map (fun c => c.1))).1,
    match (tryCommands spawn (frontend_commands.map (fun c => c.1))).2 with
    | some child => Except.ok child
    | none => Except.error frontendNotFoundMsg)

/-- The ordered candidate list `start_backend` works through. -/
def backendCandidates (venvExists : Bool) : List String :=
  (if venvExists then [venv_python] else []) ++ python_commands

/-- The ordered candidate list `start_frontend` works through. -/
def frontendCandidates : List String :=
  frontend_commands.map (fun c => c.1)

/-- `leadsWith pat s`: `pat` is an initial segment of `s` (character lists). -/
def leadsWith : List Char → List Char → Bool
  | [], _ => true
  | _ :: _, [] => false
  | a :: asc, b :: bs => a == b && leadsWith asc bs

/-- `occursIn pat s`: `pat` occurs contiguously somewhere in `s`. -/
def occursIn (pat : List Char) : List Char → Bool
  | [] => leadsWith pat []
  | b :: bs => leadsWith pat (b :: bs) || occursIn pat bs

/-- `mentions msg p`: the string `msg` contains the program name `p`. -/
def mentions (msg p : String) : Bool :=
  occursIn p.toList msg.toList

/-! ## Shared supervisor state and shutdown (main.rs 129-132, 226-274) -/

/-- `AppState` (main.rs 129-132): at most one child-process handle per role,
handles modelled as numeric identifiers. -/
structure AppState where
  backend : Option Nat
  frontend : Option Nat
  deriving DecidableEq, Repr

/-- The close-requested handler body (main.rs 266-274): under the state lock,
`kill` any present handle of either role, discarding each result
(`let _ = child.kill()`); the `Option` slots are not cleared.  `killRes`
models the success/failure of each `kill` call; the returned list records
the handles a termination signal was sent to, in order. -/
def shutdownAll (killRes : Nat → Bool) (s : AppState) : AppState × List Nat :=
  let backendKills :=
    match s.backend with
    | some child =>
        let _ := killRes child
        [child]
    | none => []
  let frontendKills :=
    match s.frontend with
    | some child =>
        let _ := killRes child
        [child]
    | none => []
  (s, backendKills ++ frontendKills)

/-- The handler is registered with `once_global` (main.rs 266): the runtime
invokes it at most once per event name. -/
def closeHandlerMaxInvocations : Nat := 1

/-! ## Concurrent access to the supervisor state (main.rs 229-255, 266-274)

Three concurrent units touch the `Arc<Mutex<AppState>>`: the backend launch
thread, the frontend launch thread, and the close-requested handler.  Each
unit's behaviour is a fixed script of atomic actions; a program execution is
any interleaving of the three scripts.  `acquire`/`release` bracket each
unit's `state.lock().unwrap()` critical section. -/

/-- Atomic actions on the shared `Mutex<AppState>`. -/
inductive Action where
  /-- `state.lock().unwrap()` succeeds. -/
  | acquire
  /-- the `MutexGuard` is dropped. -/
  | release
  /-- `s.backend = Some(child)` (main.rs 236). -/
  | writeBackend (h : Nat)
  /-- `s.frontend = Some(child)` (main.rs 250). -/
  | writeFrontend (h : Nat)
  /-- `if let Some(child) = s.backend.as_mut() { let _ = child.kill(); }` (main.rs 268-270). -/
  | killBackendSlot
  /-- the same for the frontend slot (main.rs 271-273). -/
  | killFrontendSlot
  deriving DecidableEq, Repr

/-- The backend launch thread (main.rs 232-240): on a successful
`start_backend` it locks the state and stores the handle; on failure it only
logs and never touches the state. -/
def backendLaunchScript (res : Option Nat) : List Action :=
  match res with
  | some h => [Action.acquire, Action.writeBackend h, Action.release]
  | none => []

/-- The frontend launch thread (main.rs 246-254). -/
def frontendLaunchScript (res : Option Nat) : List Action :=
  match res with
  | some h => [Action.acquire, Action.writeFrontend h, Action.release]
  | none => []

/-- The close-requested handler (main.rs 266-274): one critical section that
reads both slots and kills any present handle; the slots are not written. -/
def shutdownScript : List Action :=
  [Action.acquire, Action.killBackendSlot, Action.killFrontendSlot, Action.release]

/-- `Interleave xs ys zs`: `zs` is an order-preserving merge of `xs` and `ys`. -/
inductive Interleave : List Action → List Action → List Action → Prop where
  | nil : Interleave [] [] []
  | left {x xs ys zs} : Interleave xs ys zs → Interleave (x :: xs) ys (x :: zs)
  | right {y xs ys zs} : Interleave xs ys zs → Interleave xs (y :: ys) (y :: zs)

/-- Effect of one action on the slots.  Writes set the role's slot; kills
signal the child but do not clear the slot; lock traffic changes nothing. -/
def applyAction (s : AppState) : Action → AppState
  | Action.writeBackend h => { s with backend := some h }
  | Action.writeFrontend h => { s with frontend := some h }
  | _ => s

/-- Run a trace of actions from a state. -/
def runTrace (s : AppState) : List Action → AppState
  | [] => s
  | a :: rest => runTrace (applyAction s a) rest

/-- Does the action write the backend slot? -/
def writesBackendSlot : Action → Bool
  | Action.writeBackend _ => true
  | _ => false

/-- Does the action write the frontend slot? -/
def writesFrontendSlot : Action → Bool
  | Action.writeFrontend _ => true
  | _ => false

/-- Does the action read or write a process-handle slot? -/
def touchesSlots : Action → Bool
  | Action.writeBackend _ => true
  | Action.writeFrontend _ => true
  | Action.killBackendSlot => true
  | Action.killFrontendSlot => true
  | _ => false

/-- `accessesUnderLock locked script`: scanning the script with lock state
`locked`, every slot access happens while the unit holds the lock. -/
def accessesUnderLock : Bool → List Action → Bool
  | _, [] => true
  | _, Action.acquire :: rest => accessesUnderLock true rest
  | _, Action.release :: rest => accessesUnderLock false rest
  | locked, a :: rest =>
      (!touchesSlots a || locked) && accessesUnderLock locked rest

/-! ## Concrete oracles used by the witness theorems -/

/-- A window whose `eval`/`navigate` calls always succeed. -/
def okW : String → Except String Unit := fun _ => Except.ok ()

/-- A window whose `eval`/`navigate` calls always fail. -/
def failW : String → Except String Unit := fun _ => Except.error "webview gone"

/-- Probes that never succeed. -/
def allFalseProbes : Nat → Bool × Bool := fun _ => (false, false)

/-- Probes that succeed immediately. -/
def allTrueProbes : Nat → Bool × Bool := fun _ => (true, true)

/-- Probes that fail on tick 0 and succeed afterwards. -/
def mixedProbes : Nat → Bool × Bool := fun k => if k = 0 then (false, false) else (true, true)

/-- A spawn oracle on which `python3` and `python` fail and `py` succeeds. -/
def spawnThirdOk : SpawnOracle := fun p =>
  if p = "py" then Except.ok 7 else Except.error "No such file or directory (os error 2)"

/-- A spawn oracle on which every program fails to spawn. -/
def failAllSpawn : SpawnOracle := fun _ =>
  Except.error "No such file or directory (os error 2)"

/-! ## Basic lemmas about the readiness loop -/

lemma waitFrom_zero (e n : String → Except String Unit) (o : Nat → Bool × Bool) (a : Nat) :
    waitFrom e n o a 0 = [Event.emitFailed] := rfl

lemma waitFrom_succ (e n : String → Except String Unit) (o : Nat → Bool × Bool) (a r : Nat) :
    waitFrom e n o a (r + 1) =
      Event.probeBackend (o a).1 :: Event.probeFrontend (o a).2 ::
        (if (o a).1 && (o a).2 then [Event.navigate frontend_url]
         else Event.emitStatus (statusMessage (o a).1 (o a).2) ::
           waitFrom e n o (a + 1) r) := rfl

/-- The trace from attempt `a` with budget `r` depends on the probe oracle
only through the outcomes of ticks `a, a+1, ..., a+r-1`. -/
lemma waitFrom_congr (e n : String → Except String Unit) (o₁ o₂ : Nat → Bool × Bool) :
    ∀ r a, (∀ k, a ≤ k → k < a + r → o₁ k = o₂ k) →
      waitFrom e n o₁ a r = waitFrom e n o₂ a r := by
  intro r
  induction r with
  | zero => intro a _; rfl
  | succ r ih =>
      intro a h
      have h0 : o₁ a = o₂ a := h a le_rfl (by omega)
      have hrec : waitFrom e n o₁ (a + 1) r = waitFrom e n o₂ (a + 1) r :=
        ih (a + 1) (fun k hk1 hk2 => h k (by omega) (by omega))
      rw [waitFrom_succ, waitFrom_succ, h0, hrec]

/-- The window callbacks' results do not enter the trace. -/
lemma waitFrom_window_irrelevant (e₁ n₁ e₂ n₂ : String → Except String Unit)
    (o : Nat → Bool × Bool) :
    ∀ r a, waitFrom e₁ n₁ o a r = waitFrom e₂ n₂ o a r := by
  intro r
  induction r with
  | zero => intro a; rfl
  | succ r ih =>
      intro a
      rw [waitFrom_succ, waitFrom_succ, ih (a + 1)]

/-! ## Claim theorems -/

/-- C1.  The readiness status emitted in a tick is a pure function of only
that tick's two probe booleans, with the source's mapping: backend-only ready
gives "Waiting for frontend...", frontend-only ready gives "Waiting for
backend...", neither gives "Starting services...", and both ready triggers
the navigation hand-off instead of a status.  The trace from attempt `a`
depends on nothing carried between ticks except the attempt counter: it is
determined by the probe outcomes of the remaining ticks alone. -/
theorem readiness_status_pure_function (e n : String → Except String Unit)
    (o : Nat → Bool × Bool) (a r : Nat) :
    waitFrom e n o a (r + 1) =
      Event.probeBackend (o a).1 :: Event.probeFrontend (o a).2 ::
        (if (o a).1 && (o a).2 then [Event.navigate frontend_url]
         else Event.emitStatus (statusMessage (o a).1 (o a).2) ::
           waitFrom e n o (a + 1) r)
    ∧ (∀ o₂ : Nat → Bool × Bool, (∀ k, a ≤ k → k < a + (r + 1) → o k = o₂ k) →
        waitFrom e n o a (r + 1) = waitFrom e n o₂ a (r + 1))
    ∧ statusMessage true false = "Waiting for frontend..."
    ∧ statusMessage false true = "Waiting for backend..."
    ∧ statusMessage false false = "Starting services..." := by
  refine ⟨waitFrom_succ e n o a r, ?_, rfl, rfl, rfl⟩
  intro o₂ h
  exact waitFrom_congr e n o o₂ (r + 1) a h

/-- Witness for C1 at a concrete tick: two oracles agreeing on tick 0 yield
the same one-tick trace, and the mapping holds at `(true, false)`. -/
theorem readiness_status_pure_function_witness :
    waitFrom okW okW allFalseProbes 0 1 = waitFrom okW okW mixedProbes 0 1
    ∧ statusMessage true false = "Waiting for frontend..." :=
  ⟨(readiness_status_pure_function okW okW allFalseProbes 0 0).2.1 mixedProbes
      (fun k _ hk2 => by
        have hk : k = 0 := by omega
        subst hk
        rfl),
    (readiness_status_pure_function okW okW allFalseProbes 0 0).2.2.1⟩

/-- C3.  If both probes come back `true` on the very first tick, the run is
exactly two probe events followed by the single `navigate` hand-off to the
frontend root URL: one `Ready` emission, no pending-status update, zero
further ticks. -/
theorem first_tick_ready_handoff (e n : String → Except String Unit)
    (o : Nat → Bool × Bool) (m : Nat) (h1 : o 0 = (true, true)) (h2 : 0 < m) :
    wait_for_services e n o m =
      [Event.probeBackend true, Event.probeFrontend true, Event.navigate frontend_url]
    ∧ ((wait_for_services e n o m).filter (fun ev => isNavigate ev)).length = 1
    ∧ ((wait_for_services e n o m).filter (fun ev => isStatus ev)).length = 0
    ∧ ((wait_for_services e n o m).filter (fun ev => isProbe ev)).length = 2 := by
  obtain ⟨r, rfl⟩ : ∃ r, m = r + 1 := ⟨m - 1, by omega⟩
  have htr : wait_for_services e n o (r + 1) =
      [Event.probeBackend true, Event.probeFrontend true, Event.navigate frontend_url] := by
    rw [wait_for_services, waitFrom_succ, h1]
    rfl
  rw [htr]
  exact ⟨rfl, rfl, rfl, rfl⟩

/-- Witness for C3: immediately-ready probes with the source's budget of 60. -/
theorem first_tick_ready_handoff_witness :
    wait_for_services okW okW allTrueProbes max_attempts =
      [Event.probeBackend true, Event.probeFrontend true, Event.navigate frontend_url]
    ∧ ((wait_for_services okW okW allTrueProbes max_attempts).filter
        (fun ev => isNavigate ev)).length = 1 :=
  ⟨(first_tick_ready_handoff okW okW allTrueProbes max_attempts rfl (by decide)).1,
    (first_tick_ready_handoff okW okW allTrueProbes max_attempts rfl (by decide)).2.1⟩

/-- C10.  The results of every consumer callback (`window.eval` status
updates, the error view, the `window.navigate` hand-off) are discarded by the
gate (`let _ = ...`), so the entire observable run — probing, attempt
counting, status emission and termination — is identical whichever results
those callbacks produce. -/
theorem consumer_callback_results_ignored (e₁ n₁ e₂ n₂ : String → Except String Unit)
    (o : Nat → Bool × Bool) (m : Nat) :
    wait_for_services e₁ n₁ o m = wait_for_services e₂ n₂ o m := by
  rw [wait_for_services, wait_for_services, waitFrom_window_irrelevant e₁ n₁ e₂ n₂ o m 0]

/-- When no tick has both probes ready, the loop runs its full budget:
`r` status emissions, one terminal `emitFailed`, `2 * r` probe calls, no probe
after the failure, and the failure is the last event. -/
lemma waitFrom_timeout_counts (e n : String → Except String Unit)
    (o : Nat → Bool × Bool) (h : ∀ k, ((o k).1 && (o k).2) = false) :
    ∀ r a,
      countStatus (waitFrom e n o a r) = r
      ∧ countFailed (waitFrom e n o a r) = 1
      ∧ countProbe (waitFrom e n o a r) = 2 * r
      ∧ noProbeAfterFailed (waitFrom e n o a r) = true
      ∧ ∃ pre, waitFrom e n o a r = pre ++ [Event.emitFailed] := by
  intro r
  induction r with
  | zero =>
      intro a
      exact ⟨rfl, rfl, rfl, rfl, [], rfl⟩
  | succ r ih =>
      intro a
      obtain ⟨ih1, ih2, ih3, ih4, pre, ih5⟩ := ih (a + 1)
      have hstep : waitFrom e n o a (r + 1) =
          Event.probeBackend (o a).1 :: Event.probeFrontend (o a).2 ::
            Event.emitStatus (statusMessage (o a).1 (o a).2) :: waitFrom e n o (a + 1) r := by
        rw [waitFrom_succ, h a]
        rfl
      rw [hstep]
      refine ⟨?_, ?_, ?_, ?_, ?_⟩
      · simp only [countStatus, ih1]
      · simp only [countFailed, ih2]
      · simp only [countProbe, ih3]
        omega
      · simp only [noProbeAfterFailed, ih4]
      · exact ⟨Event.probeBackend (o a).1 :: Event.probeFrontend (o a).2 ::
          Event.emitStatus (statusMessage (o a).1 (o a).2) :: pre, by rw [ih5]; rfl⟩

/-- C2.  When the two probes are never simultaneously ready, the gate emits
exactly `maxAttempts` status updates (hence at most `maxAttempts`), then one
terminal failure emission which is the last event of the run; all `2 *
maxAttempts` probe calls precede it and no probe occurs after it, so the
probe-call count stays constant once the gate has failed. -/
theorem gate_bounded_failure (e n : String → Except String Unit)
    (o : Nat → Bool × Bool) (m : Nat)
    (h : ∀ k, ((o k).1 && (o k).2) = false) :
    countStatus (wait_for_services e n o m) = m
    ∧ countFailed (wait_for_services e n o m) = 1
    ∧ countProbe (wait_for_services e n o m) = 2 * m
    ∧ noProbeAfterFailed (wait_for_services e n o m) = true
    ∧ ∃ pre, wait_for_services e n o m = pre ++ [Event.emitFailed] :=
  waitFrom_timeout_counts e n o h m 0

/-- Witness for C2 at the spec's scenario: budget 3, probes always false:
3 status emissions, one failure, 6 probe calls, nothing probed afterward. -/
theorem gate_bounded_failure_witness :
    countStatus (wait_for_services okW okW allFalseProbes 3) = 3
    ∧ countFailed (wait_for_services okW okW allFalseProbes 3) = 1
    ∧ countProbe (wait_for_services okW okW allFalseProbes 3) = 2 * 3
    ∧ noProbeAfterFailed (wait_for_services okW okW allFalseProbes 3) = true
    ∧ ∃ pre, wait_for_services okW okW allFalseProbes 3 = pre ++ [Event.emitFailed] :=
  gate_bounded_failure okW okW allFalseProbes 3 (fun _ => rfl)

/-- C6 counterexample.  A received response with the 3xx-class status 301
does NOT make the probe return `true`: `StatusCode::is_success()` covers only
2xx, so the claimed "2xx or 3xx" equivalence fails at status 301. -/
theorem probe_3xx_not_ready_cex :
    ¬ (is_backend_ready (some 301) = true ↔ (200 ≤ 301 ∧ 301 < 400)) := by
  decide

/-- C6 (amended).  A probe returns `true` iff a response was received before
any failure and its final status is in the 2xx class (200-299); every
connection error yields `false`, and the probe is a total boolean function —
no error escapes it. -/
theorem probe_success_iff_2xx (resp : Option Nat) :
    (is_backend_ready resp = true ↔ ∃ c, resp = some c ∧ 200 ≤ c ∧ c < 300)
    ∧ (is_frontend_ready resp = true ↔ ∃ c, resp = some c ∧ 200 ≤ c ∧ c < 300)
    ∧ is_backend_ready none = false
    ∧ is_frontend_ready none = false := by
  refine ⟨?_, ?_, rfl, rfl⟩ <;>
    cases resp with
    | none => simp [is_backend_ready, is_frontend_ready]
    | some c =>
        simp [is_backend_ready, is_frontend_ready, statusIsSuccess, Bool.and_eq_true,
          decide_eq_true_eq]

/-- C7.  The claim requires each probe call to carry a timeout no longer than
the poll interval.  The source's `reqwest::get` builds the default client,
whose request timeout is disabled, so no per-call timeout bounded by the
cadence exists: a hung request stalls the tick indefinitely, contradicting
the loop's own "60 seconds max" comment. -/
theorem probe_no_per_call_timeout :
    reqwest_default_timeout = none
    ∧ ¬ ∃ t, reqwest_default_timeout = some t ∧ t ≤ poll_interval_secs := by
  refine ⟨rfl, ?_⟩
  rintro ⟨t, ht, -⟩
  simp [reqwest_default_timeout] at ht

/-- C8 counterexample.  With both probe latencies equal to 5, the frontend
probe starts exactly when the backend probe ends (not before), and the tick's
probe phase lasts 10 — the sum of the latencies — not the maximum 5 the
claimed concurrent issuance would give. -/
theorem probes_concurrency_cex :
    ¬ frontendProbeStart 5 < backendProbeEnd 5
    ∧ tickProbeDuration 5 5 = 10
    ∧ max 5 5 = 5
    ∧ tickProbeDuration 5 5 ≠ max 5 5 := by
  decide

/-- C8 (amended).  The two probes of a tick are awaited sequentially: the
frontend probe starts only when the backend probe completes, the tick awaits
both before proceeding, and the probe phase lasts the SUM of the two
latencies — strictly more than their maximum whenever both are positive.  In
the event trace the backend probe outcome always precedes the frontend one. -/
theorem probes_sequential_sum_latency (b f : Nat) (hb : 0 < b) (hf : 0 < f) :
    frontendProbeStart b = backendProbeEnd b
    ∧ tickProbeDuration b f = b + f
    ∧ max b f < tickProbeDuration b f
    ∧ (∀ (e n : String → Except String Unit) (o : Nat → Bool × Bool) (a r : Nat),
        (waitFrom e n o a (r + 1)).take 2 =
          [Event.probeBackend (o a).1, Event.probeFrontend (o a).2]) := by
  refine ⟨rfl, rfl, ?_, ?_⟩
  · have : max b f < b + f := by
      rcases Nat.max_lt.mpr ⟨Nat.lt_add_of_pos_right hf, Nat.lt_add_of_pos_left hb⟩ with h
      exact h
    simpa [tickProbeDuration, frontendProbeEnd] using this
  · intro e n o a r
    rw [waitFrom_succ]
    rfl

/-- Witness for C8 (amended) at latencies 1 and 1. -/
theorem probes_sequential_sum_latency_witness :
    frontendProbeStart 1 = backendProbeEnd 1
    ∧ tickProbeDuration 1 1 = 1 + 1
    ∧ max 1 1 < tickProbeDuration 1 1 :=
  ⟨(probes_sequential_sum_latency 1 1 (by decide) (by decide)).1,
    (probes_sequential_sum_latency 1 1 (by decide) (by decide)).2.1,
    (probes_sequential_sum_latency 1 1 (by decide) (by decide)).2.2.1⟩

/-! ## Lemmas about command resolution -/

/-- If every program before `c` fails to spawn and `c` spawns, the candidate
loop attempts exactly the failing programs and then `c`, in order, and
returns `c`'s handle. -/
lemma tryCommands_first_ok (spawn : SpawnOracle) :
    ∀ (pre : List String) (c : String) (post : List String) (hdl : Nat),
      (∀ p ∈ pre, ∃ e, spawn p = Except.error e) →
      spawn c = Except.ok hdl →
      tryCommands spawn (pre ++ c :: post) = (pre ++ [c], some hdl) := by
  intro pre
  induction pre with
  | nil =>
      intro c post hdl _ hc
      simp [tryCommands, hc]
  | cons p pre ih =>
      intro c post hdl hpre hc
      obtain ⟨e, he⟩ := hpre p (List.mem_cons_self p pre)
      have hrest := ih c post hdl (fun q hq => hpre q (List.mem_cons_of_mem p hq)) hc
      simp [tryCommands, he, hrest]

/-- If every candidate fails to spawn, the loop attempts all of them in order
and produces no handle. -/
lemma tryCommands_all_fail (spawn : SpawnOracle) :
    ∀ l : List String, (∀ p ∈ l, ∃ e, spawn p = Except.error e) →
      tryCommands spawn l = (l, none) := by
  intro l
  induction l with
  | nil => intro _; rfl
  | cons p rest ih =>
      intro h
      obtain ⟨e, he⟩ := h p (List.mem_cons_self p rest)
      simp [tryCommands, he, ih (fun q hq => h q (List.mem_cons_of_mem p hq))]

/-- C4 counterexample.  With every candidate failing to spawn, the backend
resolver does attempt all three interpreters but returns the fixed message
"Could not start Python backend - Python not found", which does not list the
attempted program name `python3` (nor the others) — refuting the claim that
the resolution error lists the program names of all attempted candidates. -/
theorem resolver_error_names_cex :
    start_backend false failAllSpawn = (python_commands, Except.error backendNotFoundMsg)
    ∧ "python3" ∈ python_commands
    ∧ mentions backendNotFoundMsg "python3" = false
    ∧ mentions backendNotFoundMsg "python" = false
    ∧ mentions backendNotFoundMsg "py" = false := by
  refine ⟨rfl, by decide, by decide, by decide, by decide⟩

/-- C4 (amended).  Each resolver tries its candidates exactly once each, in
list order, and returns the handle of the first candidate that spawns
(attempting exactly the preceding failures and that candidate); if every
candidate fails to spawn it attempts them all and returns a fixed
role-specific not-found error whose message does not list the attempted
program names. -/
theorem resolver_first_success_fixed_error (spawn : SpawnOracle) (venvExists : Bool) :
    (∀ pre c post hdl, backendCandidates venvExists = pre ++ c :: post →
        (∀ p ∈ pre, ∃ e, spawn p = Except.error e) →
        spawn c = Except.ok hdl →
        start_backend venvExists spawn = (pre ++ [c], Except.ok hdl))
    ∧ ((∀ p ∈ backendCandidates venvExists, ∃ e, spawn p = Except.error e) →
        start_backend venvExists spawn =
          (backendCandidates venvExists, Except.error backendNotFoundMsg))
    ∧ (∀ pre c post hdl, frontendCandidates = pre ++ c :: post →
        (∀ p ∈ pre, ∃ e, spawn p = Except.error e) →
        spawn c = Except.ok hdl →
        start_frontend spawn = (pre ++ [c], Except.ok hdl))
    ∧ ((∀ p ∈ frontendCandidates, ∃ e, spawn p = Except.error e) →
        start_frontend spawn = (frontendCandidates, Except.error frontendNotFoundMsg))
    ∧ (∀ p ∈ backendCandidates venvExists, mentions backendNotFoundMsg p = false)
    ∧ (∀ p ∈ frontendCandidates, mentions frontendNotFoundMsg p = false) := by
  refine ⟨?_, ?_, ?_, ?_, ?_, ?_⟩
  · intro pre c post hdl hsplit hpre hc
    cases venvExists with
    | false =>
        have hpc : python_commands = pre ++ c :: post := by
          simpa [backendCandidates] using hsplit
        have := tryCommands_first_ok spawn pre c post hdl hpre hc
        simp [start_backend, ← hpc, hpc ▸ this]
    | true =>
        cases pre with
        | nil =>
            have hc' : venv_python = c := by
              simpa [backendCandidates] using congrArg (fun l => l.head?) hsplit
            subst hc'
            simp [start_backend, hc]
        | cons q pre' =>
            have hqq : venv_python :: python_commands = q :: (pre' ++ c :: post) := by
              simpa [backendCandidates] using hsplit
            have hq : q = venv_python := by
              injection hqq with h1 _
              exact h1.symm
            have hpc : python_commands = pre' ++ c :: post := by
              injection hqq with _ h2
            subst hq
            obtain ⟨e, he⟩ := hpre venv_python (List.mem_cons_self venv_python pre')
            have htc := tryCommands_first_ok spawn pre' c post hdl
              (fun p hp => hpre p (List.mem_cons_of_mem venv_python hp)) hc
            simp [start_backend, he, ← hpc, hpc ▸ htc]
  · intro hall
    cases venvExists with
    | false =>
        have := tryCommands_all_fail spawn python_commands
          (fun p hp => hall p (by simpa [backendCandidates] using hp))
        simp [start_backend, backendCandidates, this]
    | true =>
        obtain ⟨e, he⟩ := hall venv_python (by simp [backendCandidates])
        have := tryCommands_all_fail spawn python_commands
          (fun p hp => hall p (by simp [backendCandidates, hp]))
        simp [start_backend, he, backendCandidates, this]
  · intro pre c post hdl hsplit hpre hc
    have := tryCommands_first_ok spawn pre c post hdl hpre hc
    have hfc : frontend_commands.map (fun cc => cc.1) = pre ++ c :: post := by
      simpa [frontendCandidates] using hsplit
    simp [start_frontend, ← hfc, hfc ▸ this]
  · intro hall
    have := tryCommands_all_fail spawn (frontend_commands.map (fun cc => cc.1))
      (fun p hp => hall p (by simpa [frontendCandidates] using hp))
    simp [start_frontend, frontendCandidates, this]
  · cases venvExists <;> decide
  · decide

/-- Witness for C4 (amended): with `python3` and `python` failing to spawn
and `py` succeeding with handle 7, the backend resolver returns the third
candidate's handle after attempting exactly the first two. -/
theorem resolver_first_success_fixed_error_witness :
    start_backend false spawnThirdOk = (["python3", "python"] ++ ["py"], Except.ok 7) :=
  (resolver_first_success_fixed_error spawnThirdOk false).1 ["python3", "python"] "py" [] 7
    (by decide)
    (by
      intro p hp
      fin_cases hp <;> exact ⟨"No such file or directory (os error 2)", rfl⟩)
    rfl

/-! ## Shutdown behaviour -/

/-- C5 counterexample.  The close-requested handler does not clear the handle
slots after killing: starting from a registered backend handle 0, the first
invocation sends it a termination signal and leaves the slot set, so a second
invocation sends the termination signal to the very same handle again — the
operation, invoked twice in sequence, double-terminates. -/
theorem shutdown_second_call_rekills_cex :
    (shutdownAll (fun _ => true) ⟨some 0, none⟩).2 = [0]
    ∧ (shutdownAll (fun _ => true) ⟨some 0, none⟩).1 = ⟨some 0, none⟩
    ∧ (shutdownAll (fun _ => true) ((shutdownAll (fun _ => true) ⟨some 0, none⟩).1)).2 = [0]
    ∧ ¬ (shutdownAll (fun _ => true) ((shutdownAll (fun _ => true) ⟨some 0, none⟩).1)).2 = [] := by
  refine ⟨rfl, rfl, rfl, by decide⟩

/-- C5 (amended).  Shutdown terminates any present handle of each role,
ignoring the individual termination results (its behaviour is identical for
any kill-result oracle, so both roles are attempted even if one termination
fails), and with zero registered handles it is a no-op rather than an error.
It never clears the slots, however, so a second invocation in sequence
re-issues termination to the same still-registered handles — without error —
rather than being a no-op; in the program the handler is registered
single-shot (`once_global`), so it runs at most once. -/
theorem shutdown_best_effort_no_clear (k₁ k₂ : Nat → Bool) (s : AppState) :
    shutdownAll k₁ s = shutdownAll k₂ s
    ∧ (shutdownAll k₁ s).1 = s
    ∧ (shutdownAll k₁ ⟨none, none⟩).2 = []
    ∧ (∀ b, s.backend = some b → b ∈ (shutdownAll k₁ s).2)
    ∧ (∀ f, s.frontend = some f → f ∈ (shutdownAll k₁ s).2)
    ∧ (shutdownAll k₁ (shutdownAll k₁ s).1).2 = (shutdownAll k₁ s).2 := by
  obtain ⟨b, f⟩ := s
  refine ⟨rfl, rfl, rfl, ?_, ?_, rfl⟩
  · intro hb hhb
    cases b with
    | none => exact absurd hhb (by simp)
    | some b' =>
        have : hb = b' := by
          simpa using hhb.symm
        subst this
        cases f <;> simp [shutdownAll]
  · intro hf hhf
    cases f with
    | none => exact absurd hhf (by simp)
    | some f' =>
        have : hf = f' := by
          simpa using hhf.symm
        subst this
        cases b <;> simp [shutdownAll]

/-- Witness for C5 (amended): both handles registered, one kill oracle
failing and one succeeding — identical behaviour, both handles signalled. -/
theorem shutdown_best_effort_no_clear_witness :
    shutdownAll (fun _ => true) ⟨some 1, some 2⟩ = shutdownAll (fun _ => false) ⟨some 1, some 2⟩
    ∧ (1 : Nat) ∈ (shutdownAll (fun _ => true) ⟨some 1, some 2⟩).2
    ∧ (2 : Nat) ∈ (shutdownAll (fun _ => true) ⟨some 1, some 2⟩).2 :=
  ⟨(shutdown_best_effort_no_clear (fun _ => true) (fun _ => false) ⟨some 1, some 2⟩).1,
    (shutdown_best_effort_no_clear (fun _ => true) (fun _ => false) ⟨some 1, some 2⟩).2.2.2.1 1 rfl,
    (shutdown_best_effort_no_clear (fun _ => true) (fun _ => false) ⟨some 1, some 2⟩).2.2.2.2.1 2 rfl⟩

/-! ## Slot-invariant under interleaving -/

/-- An interleaving carries exactly the actions of its two sources. -/
lemma interleave_countP (p : Action → Bool) {xs ys zs : List Action}
    (h : Interleave xs ys zs) :
    zs.countP p = xs.countP p + ys.countP p := by
  induction h with
  | nil => rfl
  | left _ ih =>
      simp only [List.countP_cons, ih]
      omega
  | right _ ih =>
      simp only [List.countP_cons, ih]
      omega

/-- Any interleaving of two lists exists; appending is one. -/
lemma interleave_append (xs ys : List Action) : Interleave xs ys (xs ++ ys) := by
  induction xs with
  | nil =>
      induction ys with
      | nil => exact Interleave.nil
      | cons y ys ih => exact Interleave.right ih
  | cons x xs ih => exact Interleave.left ih

/-- C9.  In every interleaved execution of the backend launch thread, the
frontend launch thread and the shutdown handler, each role's handle slot is
written at most once — so a slot, once set to a live handle, is never
overwritten while live (kills never clear a slot, and no other action
modifies it) — and each of the three units touches the slots only while it
holds the state lock. -/
theorem slots_written_once_under_lock (rb rf : Option Nat) (m tr : List Action)
    (h₁ : Interleave (backendLaunchScript rb) (frontendLaunchScript rf) m)
    (h₂ : Interleave m shutdownScript tr) :
    tr.countP (fun a => writesBackendSlot a) ≤ 1
    ∧ tr.countP (fun a => writesFrontendSlot a) ≤ 1
    ∧ (∀ s a, writesBackendSlot a = false → (applyAction s a).backend = s.backend)
    ∧ (∀ s a, writesFrontendSlot a = false → (applyAction s a).frontend = s.frontend)
    ∧ accessesUnderLock false (backendLaunchScript rb) = true
    ∧ accessesUnderLock false (frontendLaunchScript rf) = true
    ∧ accessesUnderLock false shutdownScript = true := by
  have hb := interleave_countP (fun a => writesBackendSlot a) h₁
  have hb' := interleave_countP (fun a => writesBackendSlot a) h₂
  have hf := interleave_countP (fun a => writesFrontendSlot a) h₁
  have hf' := interleave_countP (fun a => writesFrontendSlot a) h₂
  refine ⟨?_, ?_, ?_, ?_, ?_, ?_, rfl⟩
  · rw [hb', hb]
    cases rb <;> cases rf <;> simp [backendLaunchScript, frontendLaunchScript, shutdownScript,
      writesBackendSlot, List.countP_cons]
  · rw [hf', hf]
    cases rb <;> cases rf <;> simp [backendLaunchScript, frontendLaunchScript, shutdownScript,
      writesFrontendSlot, List.countP_cons]
  · intro s a ha
    cases a <;> simp_all [applyAction, writesBackendSlot]
  · intro s a ha
    cases a <;> simp_all [applyAction, writesFrontendSlot]
  · cases rb <;> rfl
  · cases rf <;> rfl

/-- Witness for C9 on a concrete execution: both launches succeed (handles 1
and 2) and the three critical sections happen to run back-to-back. -/
theorem slots_written_once_under_lock_witness :
    ((backendLaunchScript (some 1) ++ frontendLaunchScript (some 2)) ++
        shutdownScript).countP (fun a => writesBackendSlot a) ≤ 1
    ∧ ((backendLaunchScript (some 1) ++ frontendLaunchScript (some 2)) ++
        shutdownScript).countP (fun a => writesFrontendSlot a) ≤ 1 :=
  ⟨(slots_written_once_under_lock (some 1) (some 2)
      (backendLaunchScript (some 1) ++ frontendLaunchScript (some 2))
      ((backendLaunchScript (some 1) ++ frontendLaunchScript (some 2)) ++ shutdownScript)
      (interleave_append _ _) (interleave_append _ _)).1,
    (slots_written_once_under_lock (some 1) (some 2)
      (backendLaunchScript (some 1) ++ frontendLaunchScript (some 2))
      ((backendLaunchScript (some 1) ++ frontendLaunchScript (some 2)) ++ shutdownScript)
      (interleave_append _ _) (interleave_append _ _)).2.1⟩

end PharmacyPro
